import Mathlib

/-!
Verification of `example/my_first_agent.py`: a script that instantiates an
agent, attaches a chat backend, optionally registers a Tavily search tool
gated on the `TAVILY_API_KEY` environment variable, and runs a single query.
The `spoon_ai` framework the script calls is an external collaborator; the
parts of it the claims need (agent constructor, `run`, tool registration)
are modelled from the specification and marked as such.
-/

namespace MyFirstAgent

/-- A process environment as seen through `os.getenv`: variable name to
optional string value (`none` when the variable is unset). -/
abbrev OsEnv := String → Option String

/-- Python truthiness of an `os.getenv` result: `None` and the empty string
are falsy, every other string is truthy. -/
def pyTruthy : Option String → Bool
  | none => false
  | some s => s != ""

/-- The `mcp_config` dictionary passed to `MCPTool` (source lines 20-24):
launch command, argument list, and environment mapping. -/
structure MCPConfig where
  command : String
  args : List String
  env : List (String × String)
deriving Repr, DecidableEq

/-- A Tool Descriptor as constructed by the script (source lines 17-25):
name, description, and launch configuration. -/
structure MCPTool where
  name : String
  description : String
  mcp_config : MCPConfig
deriving Repr, DecidableEq

/-- The tool collection handed to the agent: `ToolManager([...])` wraps an
ordered list of tool descriptors. -/
structure ToolManager where
  tools : List MCPTool
deriving Repr, DecidableEq

/-- Modelled from the spec: the chat backend (`ChatBot`, external framework,
not under src). The spec treats it as a completion collaborator that either
returns a textual response for a query or fails; the failure channel is the
error side of `Except`. -/
abbrev ChatBot := String → Except String String

/-- The Agent Shell's configuration state: chat backend handle, system
prompt, and tool set (the script's `agent.llm`, `agent.system_prompt`, and
`agent.avaliable_tools` attributes). -/
structure Agent where
  llm : Option ChatBot
  system_prompt : String
  avaliable_tools : ToolManager

/-- Modelled from the spec: the `SpoonReactAI()` constructor (external
framework, not under src). Per the spec's data-model invariant the tool set
is empty unless the credential installs one, and the backend and prompt are
assigned by the script immediately after construction. -/
def SpoonReactAI.new : Agent :=
  { llm := none, system_prompt := "", avaliable_tools := ⟨[]⟩ }

/-- Modelled from the spec: tool registration (the script's assignment to
the `avaliable_tools` attribute). The spec fixes its meaning: the current
tool set is replaced wholesale, with no merge semantics. -/
def register_tools (a : Agent) (ts : ToolManager) : Agent :=
  { a with avaliable_tools := ts }

/-- The Tool Descriptor the script constructs when the credential is truthy
(source lines 17-25), with `v` the value `os.getenv` returned. -/
def searchTool (v : String) : MCPTool :=
  { name := "tavily-search"
    description := "Web search via Tavily MCP"
    mcp_config :=
      { command := "npx"
        args := ["--yes", "tavily-mcp"]
        env := [("TAVILY_API_KEY", v)] } }

/-- The configuration phase of `main` (source lines 11-26): construct the
agent, attach the backend and system prompt, and register the search tool
exactly when `os.getenv("TAVILY_API_KEY")` is truthy. `init` is the agent
returned by the constructor and `llm0` the freshly built backend. -/
def configure (osEnv : OsEnv) (init : Agent) (llm0 : ChatBot) : Agent :=
  let agent : Agent :=
    { init with llm := some llm0, system_prompt := "You are a helpful AI assistant." }
  if pyTruthy (osEnv "TAVILY_API_KEY") then
    register_tools agent ⟨[searchTool ((osEnv "TAVILY_API_KEY").getD "")]⟩
  else
    agent

/-- The configuration phase with its failure channel made explicit: every
operation it performs (environment lookup, descriptor construction,
registration, attribute assignment) is total, so the phase is wrapped in
`Except` only to state that it always succeeds. -/
def configureE (osEnv : OsEnv) (init : Agent) (llm0 : ChatBot) : Except String Agent :=
  Except.ok (configure osEnv init llm0)

/-- Modelled from the spec: `Agent.run` (external framework, not under src).
Per the spec's Agent Shell contract, `run` delegates to the configured chat
backend and returns its final textual response, propagating the backend's
failure unchanged; an unreachable backend is the `BackendUnavailable`
failure. -/
def Agent.run (a : Agent) (query : String) : Except String String :=
  match a.llm with
  | some bot => bot query
  | none => Except.error "BackendUnavailable"

/-- The script's run-and-print tail (source lines 28-29) on top of the
configuration phase: the first component is the list of lines written to
standard output, the second the process outcome. On success exactly the
response is printed; on failure nothing is printed and the error propagates
uncaught. -/
def script (osEnv : OsEnv) (init : Agent) (llm0 : ChatBot) :
    List String × Except String Unit :=
  let agent := configure osEnv init llm0
  match agent.run "Hello! What is SpoonOS?" with
  | Except.ok res => ([res], Except.ok ())
  | Except.error e => ([], Except.error e)

/-- A stub chat backend that echoes its input wrapped in a fixed prefix. -/
def echoBot (pfx : String) : ChatBot := fun q => Except.ok (pfx ++ q)

/-- A stub chat backend configured to fail with a fixed error. -/
def failBot (e : String) : ChatBot := fun _ => Except.error e

/-- An environment holding only `TAVILY_API_KEY`, with value `v`. -/
def envWithKey (v : String) : OsEnv :=
  fun k => if k = "TAVILY_API_KEY" then some v else none

/-- An environment with no variables set at all. -/
def emptyEnv : OsEnv := fun _ => none

/-- C1: if `TAVILY_API_KEY` is unset at configuration time, the agent's
tool set is empty (zero tools registered); and, starting from the
constructor's state, the tool set is non-empty only if the credential was
truthy at configuration time. -/
theorem c1_unset_credential_empty_toolset (osEnv : OsEnv) (llm0 : ChatBot)
    (h : osEnv "TAVILY_API_KEY" = none) :
    (configure osEnv SpoonReactAI.new llm0).avaliable_tools.tools = [] ∧
    ∀ osEnv2 : OsEnv,
      (configure osEnv2 SpoonReactAI.new llm0).avaliable_tools.tools ≠ [] →
      pyTruthy (osEnv2 "TAVILY_API_KEY") = true := by
  constructor
  · simp [configure, h, pyTruthy, SpoonReactAI.new]
  · intro osEnv2 hne
    by_contra hf
    rw [Bool.not_eq_true] at hf
    simp [configure, hf, SpoonReactAI.new] at hne

/-- C1 witness: the concrete empty environment yields zero tools. -/
theorem c1_unset_credential_empty_toolset_witness :
    (configure emptyEnv SpoonReactAI.new (echoBot "E")).avaliable_tools.tools = [] :=
  (c1_unset_credential_empty_toolset emptyEnv (echoBot "E") rfl).1

/-- C2: for every non-empty credential value `v` present under
`TAVILY_API_KEY`, the registered Tool Descriptor's environment mapping is
exactly the one pair binding `TAVILY_API_KEY` to `v`, its command is
`npx`, and its arguments are `--yes tavily-mcp`. -/
theorem c2_descriptor_contents (osEnv : OsEnv) (v : String) (init : Agent)
    (llm0 : ChatBot) (hv : osEnv "TAVILY_API_KEY" = some v) (hne : v ≠ "") :
    (configure osEnv init llm0).avaliable_tools.tools = [searchTool v] ∧
    (searchTool v).mcp_config.env = [("TAVILY_API_KEY", v)] ∧
    (searchTool v).mcp_config.command = "npx" ∧
    (searchTool v).mcp_config.args = ["--yes", "tavily-mcp"] := by
  refine ⟨?_, rfl, rfl, rfl⟩
  simp [configure, hv, pyTruthy, hne, register_tools]

/-- C2 witness: the concrete credential value abc123. -/
theorem c2_descriptor_contents_witness :
    (configure (envWithKey "abc123") SpoonReactAI.new (echoBot "E")).avaliable_tools.tools
      = [searchTool "abc123"] ∧
    (searchTool "abc123").mcp_config.env = [("TAVILY_API_KEY", "abc123")] ∧
    (searchTool "abc123").mcp_config.command = "npx" ∧
    (searchTool "abc123").mcp_config.args = ["--yes", "tavily-mcp"] :=
  c2_descriptor_contents (envWithKey "abc123") "abc123" SpoonReactAI.new
    (echoBot "E") rfl (by decide)

/-- C3 counterexample: with the credential present in the environment but
equal to the empty string, the truthiness test fails and no descriptor is
registered, so the tool set is empty rather than a single-element
collection — the claim as stated (registration whenever the credential is
present) is false at this input. -/
theorem c3_present_empty_counterexample :
    envWithKey "" "TAVILY_API_KEY" = some "" ∧
    (configure (envWithKey "") SpoonReactAI.new (echoBot "E")).avaliable_tools.tools = [] := by
  constructor
  · rfl
  · simp [configure, envWithKey, pyTruthy, SpoonReactAI.new]

/-- C3 (amended): when the credential is present with a non-empty value,
the provisioner constructs exactly one Tool Descriptor and registers it by
replacing the agent's tool set with the single-element collection holding
only that descriptor. -/
theorem c3_single_registration (osEnv : OsEnv) (v : String) (init : Agent)
    (llm0 : ChatBot) (hv : osEnv "TAVILY_API_KEY" = some v) (hne : v ≠ "") :
    configure osEnv init llm0 =
      register_tools
        { init with llm := some llm0,
                    system_prompt := "You are a helpful AI assistant." }
        ⟨[searchTool v]⟩ ∧
    (configure osEnv init llm0).avaliable_tools.tools.length = 1 := by
  have hc : configure osEnv init llm0 =
      register_tools
        { init with llm := some llm0,
                    system_prompt := "You are a helpful AI assistant." }
        ⟨[searchTool v]⟩ := by
    simp [configure, hv, pyTruthy, hne]
  exact ⟨hc, by rw [hc]; rfl⟩

/-- C3 witness: the concrete credential value abc123 registers exactly the
singleton tool set. -/
theorem c3_single_registration_witness :
    configure (envWithKey "abc123") SpoonReactAI.new (echoBot "E") =
      register_tools
        { SpoonReactAI.new with llm := some (echoBot "E"),
                                system_prompt := "You are a helpful AI assistant." }
        ⟨[searchTool "abc123"]⟩ ∧
    (configure (envWithKey "abc123") SpoonReactAI.new (echoBot "E")).avaliable_tools.tools.length
      = 1 :=
  c3_single_registration (envWithKey "abc123") "abc123" SpoonReactAI.new
    (echoBot "E") rfl (by decide)

/-- C4: the provisioning step never fails observably: for every
environment (credential present, absent, or any string value) the
configuration phase completes successfully, returning the configured
agent; absence of the credential is a silent path, not an error. -/
theorem c4_provisioning_never_fails (osEnv : OsEnv) (init : Agent) (llm0 : ChatBot) :
    configureE osEnv init llm0 = Except.ok (configure osEnv init llm0) := rfl

/-- C5: against a stub backend that echoes its input wrapped in a fixed
prefix, running the script returns exactly the wrapped query and prints
that single response, and nothing else, to standard output. -/
theorem c5_echo_backend_roundtrip (pfx : String) (osEnv : OsEnv) (init : Agent) :
    script osEnv init (echoBot pfx) =
      ([pfx ++ "Hello! What is SpoonOS?"], Except.ok ()) := by
  have hllm : (configure osEnv init (echoBot pfx)).llm = some (echoBot pfx) := by
    simp [configure, register_tools]
    split <;> rfl
  simp [script, Agent.run, hllm, echoBot]

/-- C6: when the chat backend fails during `run`, the failure propagates
uncaught through the script and nothing is written to standard output. -/
theorem c6_backend_failure_propagates (e : String) (osEnv : OsEnv) (init : Agent) :
    script osEnv init (failBot e) = ([], Except.error e) := by
  have hllm : (configure osEnv init (failBot e)).llm = some (failBot e) := by
    simp [configure, register_tools]
    split <;> rfl
  simp [script, Agent.run, hllm, failBot]

/-- C7: registering a tool set replaces the current one wholesale: after
registering set A and then set B, exactly B is active, with no
accumulation across the two calls. -/
theorem c7_register_replaces_wholesale (a : Agent) (A B : ToolManager) :
    (register_tools (register_tools a A) B).avaliable_tools = B := rfl

/-- C8: if `TAVILY_API_KEY` is present but set to the empty string, the
truthiness test fails and the script takes the no-registration branch: the
agent is exactly the one with backend and prompt assigned and its tool set
untouched. -/
theorem c8_empty_string_no_registration (osEnv : OsEnv) (init : Agent)
    (llm0 : ChatBot) (h : osEnv "TAVILY_API_KEY" = some "") :
    configure osEnv init llm0 =
      { init with llm := some llm0,
                  system_prompt := "You are a helpful AI assistant." } ∧
    (configure osEnv init llm0).avaliable_tools = init.avaliable_tools := by
  have hc : configure osEnv init llm0 =
      { init with llm := some llm0,
                  system_prompt := "You are a helpful AI assistant." } := by
    simp [configure, h, pyTruthy]
  exact ⟨hc, by rw [hc]⟩

/-- C8 witness: the concrete environment mapping the key to the empty
string leaves the constructor's tool set in place. -/
theorem c8_empty_string_no_registration_witness :
    configure (envWithKey "") SpoonReactAI.new (echoBot "E") =
      { SpoonReactAI.new with llm := some (echoBot "E"),
                              system_prompt := "You are a helpful AI assistant." } ∧
    (configure (envWithKey "") SpoonReactAI.new (echoBot "E")).avaliable_tools
      = SpoonReactAI.new.avaliable_tools :=
  c8_empty_string_no_registration (envWithKey "") SpoonReactAI.new (echoBot "E") rfl

/-- C9: when the credential is absent the script never writes the tool-set
field: the agent keeps whatever tool set the constructor installed; and
the backend and system-prompt fields are assigned identically on every
path, whatever the environment. -/
theorem c9_absent_credential_frame (osEnv : OsEnv) (init : Agent) (llm0 : ChatBot)
    (h : osEnv "TAVILY_API_KEY" = none) :
    (configure osEnv init llm0).avaliable_tools = init.avaliable_tools ∧
    ∀ osEnv2 : OsEnv,
      (configure osEnv2 init llm0).llm = some llm0 ∧
      (configure osEnv2 init llm0).system_prompt = "You are a helpful AI assistant." := by
  refine ⟨by simp [configure, h, pyTruthy], ?_⟩
  intro osEnv2
  constructor <;> (simp [configure, register_tools]; split <;> rfl)

/-- C9 witness: the concrete empty environment preserves the constructor's
tool set. -/
theorem c9_absent_credential_frame_witness :
    (configure emptyEnv SpoonReactAI.new (echoBot "E")).avaliable_tools
      = SpoonReactAI.new.avaliable_tools :=
  (c9_absent_credential_frame emptyEnv SpoonReactAI.new (echoBot "E") rfl).1

/-- C10: for all non-empty credential values the constructed descriptor's
name and description are the fixed constants, and its name, description,
command and arguments do not vary with the value: only the environment
mapping's credential entry does. -/
theorem c10_constant_descriptor_fields (v w : String) (hv : v ≠ "") (hw : w ≠ "") :
    (searchTool v).name = "tavily-search" ∧
    (searchTool v).description = "Web search via Tavily MCP" ∧
    (searchTool v).name = (searchTool w).name ∧
    (searchTool v).description = (searchTool w).description ∧
    (searchTool v).mcp_config.command = (searchTool w).mcp_config.command ∧
    (searchTool v).mcp_config.args = (searchTool w).mcp_config.args ∧
    (searchTool v).mcp_config.env = [("TAVILY_API_KEY", v)] :=
  ⟨rfl, rfl, rfl, rfl, rfl, rfl, rfl⟩

/-- C10 witness: two concrete non-empty values share every field except the
environment entry. -/
theorem c10_constant_descriptor_fields_witness :
    (searchTool "abc123").name = "tavily-search" ∧
    (searchTool "abc123").description = "Web search via Tavily MCP" ∧
    (searchTool "abc123").name = (searchTool "xyz").name ∧
    (searchTool "abc123").description = (searchTool "xyz").description ∧
    (searchTool "abc123").mcp_config.command = (searchTool "xyz").mcp_config.command ∧
    (searchTool "abc123").mcp_config.args = (searchTool "xyz").mcp_config.args ∧
    (searchTool "abc123").mcp_config.env = [("TAVILY_API_KEY", "abc123")] :=
  c10_constant_descriptor_fields "abc123" "xyz" (by decide) (by decide)

end MyFirstAgent
